import Mathlib

/-!
Shallow embedding of the bundle / pagination / projection core of the
fhir-query repository (packages `fhir_query` and `fhir_query_client`).

JSON values returned by the server and stored in bundles are modelled by the
inductive type `Json`.  Python `dict` subscripting (`d[k]`, raising `KeyError`)
is modelled with `Except FQError`, while `d.get(k, default)` is total.
The two bundle classes (`FhirQueryBundle` in `fhir_query/bundle.py` and
`FQCBundle` in `fhir_query_client/bundle.py`) have line-for-line identical
method bodies for the operations modelled here, so a single set of
definitions embeds both.

Error names follow the error taxonomy of the specification; the Python code raises
built-in exceptions at the corresponding sites (`AssertionError` for the
ambiguous-query check, `ValueError` for the multiple-resources and
no-default-projection failures, `KeyError` / `IndexError` / `TypeError` for
dictionary, list-index and type failures).
-/

/-- A JSON value (the result of `response.json()` in the Python code). -/
inductive Json where
  | null : Json
  | bool : Bool → Json
  | num : Int → Json
  | str : String → Json
  | arr : List Json → Json
  | obj : List (String × Json) → Json

/-- First-match lookup in the field list of an object (Python dict keys are unique,
so first-match agrees with dict lookup). -/
def lookupField : List (String × Json) → String → Option Json
  | [], _ => none
  | (k, v) :: rest, key => if k = key then some v else lookupField rest key

/-- Python `d.get(key)` / `key in d`: `none` when the key is absent.  Subscripting a
non-object raises in Python; callers that subscript model that case
explicitly. -/
def Json.get : Json → String → Option Json
  | Json.obj fields, key => lookupField fields key
  | _, _ => none

/-- Replace the value of `key` (in place, preserving field order), appending a
new field when the key is absent — Python `d[key] = v` semantics. -/
def setField : List (String × Json) → String → Json → List (String × Json)
  | [], key, v => [(key, v)]
  | (k, w) :: rest, key, v =>
      if k = key then (key, v) :: rest else (k, w) :: setField rest key v

/-- Python `d[key] = v` on an object; non-objects are returned unchanged (the code
only assigns into values it already subscripted as dicts). -/
def Json.set : Json → String → Json → Json
  | Json.obj fields, key, v => Json.obj (setField fields key v)
  | j, _, _ => j

/-- Python truthiness of a JSON value (`if x:`). -/
def Json.isTruthy : Json → Bool
  | Json.null => false
  | Json.bool b => b
  | Json.num n => n != 0
  | Json.str s => s ≠ ""
  | Json.arr xs => !xs.isEmpty
  | Json.obj fs => !fs.isEmpty

/-- The error taxonomy of the specification, plus the built-in Python
exceptions (`KeyError`, `IndexError`, `TypeError`) that the code can raise. -/
inductive FQError where
  | ambiguousQuery : FQError
  | requestFailed : Nat → String → FQError
  | credentialsMissing : FQError
  | loginFailed : FQError
  | multipleResources : FQError
  | noDefaultProjection : FQError
  | keyError : String → FQError
  | indexError : FQError
  | typeError : FQError
deriving DecidableEq, Repr

/-- Python truthiness of an optional string (`if s:`): present and non-empty. -/
def pyTruthyOptStr (s : Option String) : Bool :=
  match s with
  | some v => v ≠ ""
  | none => false

/-- Python truthiness of an optional dict of query parameters (`if params:`):
present and non-empty. -/
def pyTruthyParams (p : Option (List (String × String))) : Bool :=
  match p with
  | some (_ :: _) => true
  | _ => false

/-- Python `bundle.get("entry", [])` followed by list iteration / `list.extend`:
absent key yields the empty list; a non-array value is a Python type error at
the point of iteration (a JSON string value would be iterated character-wise
by Python; no code path in the repository produces one, and it is modelled as
an error here). -/
def pyEntriesOf (bundle : Json) : Except FQError (List Json) :=
  match bundle.get "entry" with
  | none => Except.ok []
  | some (Json.arr ys) => Except.ok ys
  | some _ => Except.error FQError.typeError

/-- The comprehension `[entry["resource"] for entry in entries]` — `KeyError` when an entry has
no `resource` field. -/
def resourcesOfEntries : List Json → Except FQError (List Json)
  | [] => Except.ok []
  | e :: rest =>
      match e.get "resource" with
      | some r =>
          match resourcesOfEntries rest with
          | Except.ok rs => Except.ok (r :: rs)
          | Except.error err => Except.error err
      | none => Except.error (FQError.keyError "resource")

/-- Model of `utils.get_resources_from_bundle`:
`[entry["resource"] for entry in bundle.get("entry", [])]`. -/
def get_resources_from_bundle (bundle : Json) : Except FQError (List Json) :=
  match pyEntriesOf bundle with
  | Except.ok entries => resourcesOfEntries entries
  | Except.error e => Except.error e

/-- The loop body of `utils.get_link`: scan the link array, returning
`link["url"]` of the first link whose `link["relation"]` equals `relation`
(Python equality of a non-string JSON value with a string is `False`). -/
def findLinkRel : List Json → String → Except FQError (Option Json)
  | [], _ => Except.ok none
  | link :: rest, relation =>
      match link.get "relation" with
      | none => Except.error (FQError.keyError "relation")
      | some (Json.str s) =>
          if s = relation then
            match link.get "url" with
            | none => Except.error (FQError.keyError "url")
            | some u => Except.ok (some u)
          else findLinkRel rest relation
      | some _ => findLinkRel rest relation

/-- Model of `utils.get_link`: `None` when `"link" not in bundle`, else the url of the first
matching relation.  A non-array `link` value cannot be iterated. -/
def get_link (bundle : Json) (relation : String) : Except FQError (Option Json) :=
  match bundle.get "link" with
  | none => Except.ok none
  | some (Json.arr links) => findLinkRel links relation
  | some _ => Except.error FQError.typeError

/-- Model of `utils.get_next_link`. -/
def get_next_link (bundle : Json) : Except FQError (Option Json) :=
  get_link bundle "next"

/-- Model of `utils.get_previous_link`. -/
def get_previous_link (bundle : Json) : Except FQError (Option Json) :=
  get_link bundle "previous"

/-- The `total` property: `self.data.get("total", None)`. -/
def bundle_total (data : Json) : Option Json :=
  data.get "total"

/-- The `resource` property of both bundle classes: the lone resource when
`size == 1`, an error when `size > 1` (Python raises
`ValueError("Bundle contains more than one resource")`, which the
specification names `MultipleResourcesError`), `None` when empty. -/
def bundle_resource (data : Json) : Except FQError (Option Json) :=
  match get_resources_from_bundle data with
  | Except.error e => Except.error e
  | Except.ok rs =>
      if rs.length = 1 then Except.ok rs.head?
      else if rs.length > 1 then Except.error FQError.multipleResources
      else Except.ok none

/-- Model of `add_bundle(self, bundle)`:
`self.data["entry"].extend(bundle.get("entry", []))`.
The `entry` of the receiving bundle is subscripted directly (`KeyError` when
absent, and `.extend` needs a list value); the entries of the other bundle use the
`.get` default. -/
def add_bundle (data other : Json) : Except FQError Json :=
  match data.get "entry" with
  | none => Except.error (FQError.keyError "entry")
  | some (Json.arr xs) =>
      match pyEntriesOf other with
      | Except.error e => Except.error e
      | Except.ok ys => Except.ok (data.set "entry" (Json.arr (xs ++ ys)))
  | some _ => Except.error FQError.typeError

/-- Sequential accumulation: `for page in pages: self.add_bundle(page)` —
the pattern the query executors use once per followed page. -/
def fold_add_bundle : Json → List Json → Except FQError Json
  | data, [] => Except.ok data
  | data, p :: ps =>
      match add_bundle data p with
      | Except.ok d2 => fold_add_bundle d2 ps
      | Except.error e => Except.error e

/-- The entry lists of a sequence of raw page bundles
(`page.get("entry", [])` per page). -/
def entriesOfPages : List Json → Except FQError (List (List Json))
  | [] => Except.ok []
  | p :: ps =>
      match pyEntriesOf p with
      | Except.ok ys =>
          match entriesOfPages ps with
          | Except.ok yss => Except.ok (ys :: yss)
          | Except.error e => Except.error e
      | Except.error e => Except.error e

/-- The cell stored per row field in `utils.collect_many_paths`:
`values[0] if values and len(values) == 1 else values if values else None`.
The Python `None` marker is `Json.null`; a multi-match list is stored as the
list itself. -/
def projectCell (values : List Json) : Json :=
  match values with
  | [v] => v
  | [] => Json.null
  | vs => Json.arr vs

/-- Model of `utils.collect_many_paths(bundle, paths)`.  The FHIRPath evaluator is an
external collaborator, passed in as `eval` (`compile(path)(resource)` returns
an ordered list of matched values).  `resource_iter` subscripts
`bundle["entry"]` directly (`KeyError` when absent). -/
def collect_many_paths (bundle : Json) (paths : List (String × String))
    (eval : String → Json → List Json) :
    Except FQError (List (List (String × Json))) :=
  match bundle.get "entry" with
  | none => Except.error (FQError.keyError "entry")
  | some (Json.arr entries) =>
      match resourcesOfEntries entries with
      | Except.error e => Except.error e
      | Except.ok rs =>
          Except.ok (rs.map (fun r =>
            paths.map (fun kp => (kp.1, projectCell (eval kp.2 r)))))
  | some _ => Except.error FQError.typeError

/-- The table `constants.DF_DEFAULT_COLUMNS` (identical table imported by both bundle
classes), as an ordered name-to-path mapping per resource type. -/
def DF_DEFAULT_COLUMNS : List (String × List (String × String)) :=
  [("Patient",
    [("resourceType", "resourceType"), ("id", "id"),
     ("firstname", "name[0].given[0]"), ("lastname", "name[0].family"),
     ("gender", "gender"), ("birthdate", "birthDate"),
     ("street", "address[0].line[0]"), ("city", "address[0].city"),
     ("state", "address[0].state")]),
   ("Condition",
    [("resourceType", "resourceType"), ("id", "id"),
     ("category", "category[0].coding[0].display"),
     ("display", "code.coding[0].display"), ("code", "code.coding[0].code"),
     ("system", "code.coding[0].system"), ("subject", "subject.reference"),
     ("encounter", "encounter.reference"), ("date", "recordedDate")]),
   ("Observation",
    [("resourceType", "resourceType"), ("id", "id"),
     ("category", "category[0].coding[0].display"),
     ("display", "code.coding[0].display"), ("code", "code.coding[0].display"),
     ("system", "code.coding[0].system"), ("value", "valueQuantity.value"),
     ("unit", "valueQuantity.unit"), ("subject", "subject.reference"),
     ("encounter", "encounter.reference"), ("date", "effectiveDateTime")]),
   ("DiagnosticReport",
    [("resourceType", "resourceType"), ("id", "id"),
     ("title", "presentedForm[0].title"),
     ("url", "presentedForm[0].attachment.url"),
     ("contentType", "presentedForm[0].contentType"),
     ("category", "category[0].coding[0].display"),
     ("subject", "subject.reference"), ("encounter", "encounter.reference"),
     ("date", "effectiveDateTime")]),
   ("Medication",
    [("resourceType", "resourceType"), ("id", "id"),
     ("display", "code.coding[0].display"), ("code", "code.coding[0].code"),
     ("system", "code.coding[0].system"),
     ("manufacturer", "manufacturer.display")]),
   ("MedicationRequest",
    [("resourceType", "resourceType"), ("id", "id"),
     ("medication", "medicationReference.reference"), ("status", "status"),
     ("subject", "subject.reference")]),
   ("MedicationAdministration",
    [("resourceType", "resourceType"), ("id", "id"),
     ("medication", "medicationReference.reference"), ("status", "status"),
     ("subject", "subject.reference"),
     ("effectiveDateTime", "effectiveDateTime"),
     ("dosageText", "dosage.text")]),
   ("MedicationStatement",
    [("resourceType", "resourceType"), ("id", "id"),
     ("medication", "medicationReference.reference"), ("status", "status"),
     ("subject", "subject.reference"), ("dateAsserted", "dateAsserted"),
     ("dosageText", "dosage[0].text")]),
   ("Location",
    [("resourceType", "resourceType"), ("id", "id"),
     ("description", "description"), ("status", "status"),
     ("partOf", "partOf.reference")])]

/-- The membership test `first_resource_type in DF_DEFAULT_COLUMNS` / lookup: dict keys are
strings, so a non-string `resourceType` value is simply not found. -/
def lookupDefaultColumns (rtype : Json) : Option (List (String × String)) :=
  match rtype with
  | Json.str s =>
      match DF_DEFAULT_COLUMNS.find? (fun kv => kv.1 = s) with
      | some kv => some kv.2
      | none => none
  | _ => none

/-- Model of `to_df(self, columns)` of both bundle classes (the resulting
`pd.DataFrame(rows)` is modelled as the row list itself).  The statements
are executed in source order: the empty-and-no-columns check, then
`first_resource_type = self.resources[0]["resourceType"]` (unconditionally),
then the default-columns lookup when `columns is None`, then
`utils.bundle_to_df` = `collect_many_paths`.  Python raises `ValueError` at
both projection failures, which the specification names
`NoDefaultProjectionError`. -/
def to_df (data : Json) (columns : Option (List (String × String)))
    (eval : String → Json → List Json) :
    Except FQError (List (List (String × Json))) :=
  match get_resources_from_bundle data with
  | Except.error e => Except.error e
  | Except.ok rs =>
      if rs.length = 0 ∧ columns = none then
        Except.error FQError.noDefaultProjection
      else
        match rs.head? with
        | none => Except.error FQError.indexError
        | some first =>
            match first.get "resourceType" with
            | none => Except.error (FQError.keyError "resourceType")
            | some rtype =>
                match columns with
                | some cols => collect_many_paths data cols eval
                | none =>
                    match lookupDefaultColumns rtype with
                    | some cols => collect_many_paths data cols eval
                    | none => Except.error FQError.noDefaultProjection

/-- One HTTP exchange issued through `make_request` / `session.request`:
method, url, the `data` keyword (the POST body string, if any) and the
`headers` keyword exactly as passed (`none` when the Python argument is
`None`). -/
structure ReqRecord where
  method : String
  url : String
  body : Option String
  headers : Option (List (String × String))
deriving DecidableEq, Repr

/-- The transport, an external collaborator: every request succeeds and the
response body depends on the url (no claim settled here concerns a failing
exchange). -/
def Server : Type := String → Json

/-- Simplified model of `urllib.parse.urlencode` for the boundary: joins
`key=value` pairs with `&`.  (Percent-encoding of individual characters is
external-library behaviour no settled claim depends on.) -/
def urlencodeModel (params : List (String × String)) : String :=
  String.intercalate "&" (params.map (fun kv => kv.1 ++ "=" ++ kv.2))

/-- Simplified model of `urljoin(base, rel)` for the boundary: the client
guarantees `base` ends in a slash and `rel` is a relative path, in which case
`urljoin` appends. -/
def urljoinModel (base rel : String) : String :=
  base ++ rel

/-- Simplified model of `json.dumps` applied to an optional string:
`json.dumps(None)` is `"null"`, a string is quote-wrapped (escaping of inner
characters is external-library behaviour no settled claim depends on).  This
is the deliberate double-encoding quirk of the POST-search body. -/
def jsonDumpsOptStr (s : Option String) : String :=
  match s with
  | none => "null"
  | some v => "\"" ++ v ++ "\""

/-- Python dict merge `{**a, **b}`: keys of `a` in order with values
overridden by `b`, then keys of `b` not in `a`, in order. -/
def mergeHeaders (a b : List (String × String)) : List (String × String) :=
  a.map (fun kv =>
    match b.find? (fun kv2 => kv2.1 = kv.1) with
    | some kv2 => (kv.1, kv2.2)
    | none => kv) ++
  b.filter (fun kv2 => (a.find? (fun kv => kv.1 = kv2.1)).isNone)

/-- The `search_params` construction shared by both `_get` methods:
`if params: search_params = urlencode(params)` /
`elif search_string: search_params = search_string`. -/
def searchParamsOf (params : Option (List (String × String)))
    (search_string : Option String) : Option String :=
  if pyTruthyParams params then some (urlencodeModel (params.getD []))
  else if pyTruthyOptStr search_string then search_string
  else none

/-- The GET url construction shared by both `_get` methods:
`url = urljoin(self.base_url, resource_type)` then
`if search_params: url = url + "?" + search_params`. -/
def getUrlOf (base_url resource_type : String)
    (search_params : Option String) : String :=
  if pyTruthyOptStr search_params then
    urljoinModel base_url resource_type ++ "?" ++ (search_params.getD "")
  else urljoinModel base_url resource_type

/-- The Python identity test `x is True`. -/
def isPyTrue : Json → Bool
  | Json.bool b => b
  | _ => false

/-- The check `provided_options = sum([params is not None, search_string is not None,
full_url is True])` — note the identity test against the literal `True`:
a url string supplied as `full_url` is NOT counted. -/
def providedOptions (params : Option (List (String × String)))
    (search_string : Option String) (full_url : Json) : Nat :=
  (if params.isSome then 1 else 0) +
  (if search_string.isSome then 1 else 0) +
  (if isPyTrue full_url then 1 else 0)

/-- The pagination loop of the sync client (`FhirQueryClient._get`,
client.py lines 144-153).  `remaining_pages` counts down; the loop re-reads
`fqc_bundle.next_link` from the accumulated bundle each iteration, breaks on
a falsy link, and — in the sync client — issues the follow-up request with no
`headers` argument (`make_request(method="GET", url=next_link)`).
`requests` needs a string url, so a truthy non-string link value fails. -/
def followPagesSync (server : Server) :
    Nat → Json → List ReqRecord → Except FQError (Json × List ReqRecord)
  | 0, bund, log => Except.ok (bund, log)
  | n + 1, bund, log =>
      match get_next_link bund with
      | Except.error e => Except.error e
      | Except.ok none => Except.ok (bund, log)
      | Except.ok (some u) =>
          if u.isTruthy then
            match u with
            | Json.str nextUrl =>
                match add_bundle bund (server nextUrl) with
                | Except.error e => Except.error e
                | Except.ok bund2 =>
                    followPagesSync server n bund2
                      (log ++ [⟨"GET", nextUrl, none, none⟩])
            | _ => Except.error FQError.typeError
          else Except.ok (bund, log)

/-- The pagination loop of the async client (`AsyncFhirQueryClient._get`,
aclient.py lines 157-169): identical to the sync loop except that every
follow-up request passes `headers=request_headers`. -/
def followPagesAsync (server : Server) (request_headers : List (String × String)) :
    Nat → Json → List ReqRecord → Except FQError (Json × List ReqRecord)
  | 0, bund, log => Except.ok (bund, log)
  | n + 1, bund, log =>
      match get_next_link bund with
      | Except.error e => Except.error e
      | Except.ok none => Except.ok (bund, log)
      | Except.ok (some u) =>
          if u.isTruthy then
            match u with
            | Json.str nextUrl =>
                match add_bundle bund (server nextUrl) with
                | Except.error e => Except.error e
                | Except.ok bund2 =>
                    followPagesAsync server request_headers n bund2
                      (log ++ [⟨"GET", nextUrl, none, some request_headers⟩])
            | _ => Except.error FQError.typeError
          else Except.ok (bund, log)

/-- The test `if pages and pages > 1:` — `pages` is `None`, `0` (falsy) or an int. -/
def pagesRequested (pages : Option Int) : Option Nat :=
  match pages with
  | some k => if k > 1 then some (k - 1).toNat else none
  | none => none

/-- Model of `FhirQueryClient._get` (`fhir_query_client/client.py` lines
88-154),
returning the final bundle data together with the ordered request log.
`full_url` is `False` by default but is used as the request url
(`url=full_url`), so callers pass either `True`/`False` or a url string;
it is modelled as a `Json` value.  The sync client passes the caller-supplied
`headers` argument through to the initial request only. -/
def sync_get (base_url : String) (client_use_post : Bool) (server : Server)
    (resource_type : String) (params : Option (List (String × String)))
    (full_url : Json) (search_string : Option String) (use_post : Bool)
    (pages : Option Int) (headers : Option (List (String × String))) :
    Except FQError (Json × List ReqRecord) :=
  if providedOptions params search_string full_url > 1 then
    Except.error FQError.ambiguousQuery
  else if full_url.isTruthy then
    match full_url with
    | Json.str u => Except.ok (server u, [⟨"GET", u, none, headers⟩])
    | _ => Except.error FQError.typeError
  else
    let search_params := searchParamsOf params search_string
    let url :=
      if use_post || client_use_post then
        urljoinModel base_url (resource_type ++ "/_search")
      else getUrlOf base_url resource_type search_params
    let body :=
      if use_post || client_use_post then some (jsonDumpsOptStr search_params)
      else none
    let method := if use_post || client_use_post then "POST" else "GET"
    let bund := server url
    let log := [(⟨method, url, body, headers⟩ : ReqRecord)]
    match pagesRequested pages with
    | some fuel => followPagesSync server fuel bund log
    | none => Except.ok (bund, log)

/-- Model of `AsyncFhirQueryClient._get` (`fhir_query/aclient.py` lines
82-171).
Differences from the sync client: `request_headers` is the dict merge of the
client-level headers with the caller-supplied headers and is passed to every
request, including followed pages; the POST body is
`json.dumps(search_params) if search_params else None`. -/
def async_get (base_url : String) (client_use_post : Bool)
    (self_headers : List (String × String)) (server : Server)
    (resource_type : String) (params : Option (List (String × String)))
    (full_url : Json) (search_string : Option String) (use_post : Bool)
    (pages : Option Int) (headers : Option (List (String × String))) :
    Except FQError (Json × List ReqRecord) :=
  if providedOptions params search_string full_url > 1 then
    Except.error FQError.ambiguousQuery
  else
    let request_headers := mergeHeaders self_headers (headers.getD [])
    if full_url.isTruthy then
      match full_url with
      | Json.str u => Except.ok (server u, [⟨"GET", u, none, some request_headers⟩])
      | _ => Except.error FQError.typeError
    else
      let search_params := searchParamsOf params search_string
      let url :=
        if use_post || client_use_post then
          urljoinModel base_url (resource_type ++ "/_search")
        else getUrlOf base_url resource_type search_params
      let body :=
        if use_post || client_use_post then
          if pyTruthyOptStr search_params then some (jsonDumpsOptStr search_params)
          else none
        else none
      let method := if use_post || client_use_post then "POST" else "GET"
      let bund := server url
      let log := [(⟨method, url, body, some request_headers⟩ : ReqRecord)]
      match pagesRequested pages with
      | some fuel => followPagesAsync server request_headers fuel bund log
      | none => Except.ok (bund, log)

/-- Outcome of authentication setup: either an `Authorization` header value
was configured, or setup completed without configuring anything. -/
inductive AuthResult where
  | header : String → AuthResult
  | skipped : AuthResult
deriving DecidableEq, Repr

/-- The login endpoint, an external collaborator: given the login url it
returns the response text (the token) on a success status, or fails
(`raise_for_status`, which the specification names `LoginFailedError`). -/
def LoginServer : Type := String → Except FQError String

/-- Model of `FhirClientBase._setup_login_auth` (`fhir_query/base.py`
lines 72-93):
missing or empty username/password raise `ValueError` (which the specification
names `CredentialsMissingError`); otherwise one GET to the login url with basic
auth, whose response text becomes the token fed to `_setup_token_auth`. -/
def setup_login_auth (username password : Option String) (login_url : String)
    (loginServer : LoginServer) : Except FQError AuthResult :=
  if !pyTruthyOptStr username || !pyTruthyOptStr password then
    Except.error FQError.credentialsMissing
  else
    match loginServer login_url with
    | Except.error e => Except.error e
    | Except.ok tokenText => Except.ok (AuthResult.header ("Bearer " ++ tokenText))

/-- Model of `FhirClientBase._setup_auth` (`fhir_query/base.py` lines
43-57).  The
field values are those after `__init__` (each constructor argument already
merged with its environment-variable fallback).  Each branch requires both
the method selector and its credentials to be truthy; when no branch
matches, setup logs and returns with no auth configured.  `b64encode` is the
standard library `base64.b64encode`, an external collaborator. -/
def setup_auth (auth_method username password token login_url : Option String)
    (b64encode : String → String) (loginServer : LoginServer) :
    Except FQError AuthResult :=
  if auth_method == some "basic" && pyTruthyOptStr username && pyTruthyOptStr password then
    Except.ok (AuthResult.header
      ("Basic " ++ b64encode (username.getD "" ++ ":" ++ password.getD "")))
  else if auth_method == some "token" && pyTruthyOptStr token then
    Except.ok (AuthResult.header ("Bearer " ++ token.getD ""))
  else if auth_method == some "login" && pyTruthyOptStr login_url then
    setup_login_auth username password (login_url.getD "") loginServer
  else
    Except.ok AuthResult.skipped

/-- Model of `FhirQueryClient._setup_login_auth` (`fhir_query_client/client.py` lines
170-187): like the base-class version but with an explicit `login_url`
argument check (`ValueError` when both the argument and the field are
absent, also named `CredentialsMissingError` by the specification) and the
`login_url or self.login_url` fallback. -/
def client_setup_login_auth (username password : Option String)
    (login_url self_login_url : Option String) (loginServer : LoginServer) :
    Except FQError AuthResult :=
  if !pyTruthyOptStr username || !pyTruthyOptStr password then
    Except.error FQError.credentialsMissing
  else if !pyTruthyOptStr login_url && !pyTruthyOptStr self_login_url then
    Except.error FQError.credentialsMissing
  else
    let url := if pyTruthyOptStr login_url then login_url.getD ""
               else self_login_url.getD ""
    match loginServer url with
    | Except.error e => Except.error e
    | Except.ok tokenText => Except.ok (AuthResult.header ("Bearer " ++ tokenText))

/-- Model of `FhirQueryClient.ensure_auth` (`fhir_query_client/client.py` lines
55-59): `if self._pending_login_auth and self.login_url:` — a falsy
`login_url` silently skips the login. -/
def ensure_auth (pending_login_auth : Bool)
    (login_url username password : Option String) (loginServer : LoginServer) :
    Except FQError AuthResult :=
  if pending_login_auth && pyTruthyOptStr login_url then
    client_setup_login_auth username password login_url login_url loginServer
  else
    Except.ok AuthResult.skipped

/-! ### Helper lemmas about objects and accumulation -/

theorem lookupField_setField_self (fields : List (String × Json)) (key : String)
    (v : Json) : lookupField (setField fields key v) key = some v := by
  induction fields with
  | nil => simp [setField, lookupField]
  | cons kv rest ih =>
      by_cases h : kv.1 = key
      · simp [setField, lookupField, h]
      · simp [setField, lookupField, h, ih]

theorem lookupField_setField_ne (fields : List (String × Json)) (k key : String)
    (v : Json) (h : k ≠ key) :
    lookupField (setField fields key v) k = lookupField fields k := by
  induction fields with
  | nil => simp [setField, lookupField, Ne.symm h]
  | cons kv rest ih =>
      by_cases h2 : kv.1 = key
      · have hk : kv.1 ≠ k := by rw [h2]; exact Ne.symm h
        simp only [setField, if_pos h2, lookupField]
        rw [if_neg (Ne.symm h), if_neg hk]
      · simp only [setField, if_neg h2, lookupField]
        rw [ih]

theorem setField_lookup_eq (fields : List (String × Json)) (key : String)
    (v : Json) (h : lookupField fields key = some v) :
    setField fields key v = fields := by
  induction fields with
  | nil => simp [lookupField] at h
  | cons kv rest ih =>
      by_cases h2 : kv.1 = key
      · simp only [lookupField, if_pos h2] at h
        cases h
        simp only [setField, if_pos h2]
        rw [← h2]
      · simp only [lookupField, if_neg h2] at h
        simp [setField, h2, ih h]

theorem json_obj_of_get {data : Json} {key : String} {v : Json}
    (h : data.get key = some v) : ∃ f, data = Json.obj f := by
  cases data <;> simp [Json.get] at h ⊢

/-- The structure of every successful `add_bundle` call. -/
theorem add_bundle_ok_shape {data other result : Json}
    (h : add_bundle data other = Except.ok result) :
    ∃ f xs ys, data = Json.obj f ∧ lookupField f "entry" = some (Json.arr xs) ∧
      pyEntriesOf other = Except.ok ys ∧
      result = Json.obj (setField f "entry" (Json.arr (xs ++ ys))) := by
  unfold add_bundle at h
  cases hget : data.get "entry" with
  | none => rw [hget] at h; exact absurd h (by simp)
  | some v =>
      rw [hget] at h
      cases v with
      | arr xs =>
          cases hys : pyEntriesOf other with
          | error e => rw [hys] at h; exact absurd h (by simp)
          | ok ys =>
              rw [hys] at h
              obtain ⟨f, rfl⟩ := json_obj_of_get hget
              refine ⟨f, xs, ys, rfl, ?_, rfl, ?_⟩
              · simpa [Json.get] using hget
              · cases h
                simp [Json.set]
      | null => exact absurd h (by simp)
      | bool b => exact absurd h (by simp)
      | num n => exact absurd h (by simp)
      | str s => exact absurd h (by simp)
      | obj o => exact absurd h (by simp)

/-- The operation `add_bundle` touches only the `entry` field: every other key of the
JSON of the receiving bundle reads the same afterwards. -/
theorem add_bundle_get_ne {data other result : Json}
    (h : add_bundle data other = Except.ok result) (k : String)
    (hk : k ≠ "entry") : result.get k = data.get k := by
  obtain ⟨f, xs, ys, rfl, hf, hys, rfl⟩ := add_bundle_ok_shape h
  simp [Json.get, lookupField_setField_ne _ _ _ _ hk]

/-- The `entry` field after a successful `add_bundle` is the concatenation. -/
theorem add_bundle_get_entry {data other result : Json} {xs ys : List Json}
    (h : add_bundle data other = Except.ok result)
    (hdata : data.get "entry" = some (Json.arr xs))
    (hother : pyEntriesOf other = Except.ok ys) :
    result.get "entry" = some (Json.arr (xs ++ ys)) := by
  obtain ⟨f, xs2, ys2, rfl, hf, hys2, rfl⟩ := add_bundle_ok_shape h
  have hx : xs2 = xs := by
    simp [Json.get, hf] at hdata
    simpa using hdata
  have hy : ys2 = ys := by
    rw [hys2] at hother
    simpa using hother
  subst hx
  subst hy
  simp [Json.get, lookupField_setField_self]

theorem fold_add_bundle_get_ne {pages : List Json} {data result : Json}
    (h : fold_add_bundle data pages = Except.ok result) (k : String)
    (hk : k ≠ "entry") : result.get k = data.get k := by
  induction pages generalizing data with
  | nil =>
      unfold fold_add_bundle at h
      cases h
      rfl
  | cons p ps ih =>
      unfold fold_add_bundle at h
      cases hstep : add_bundle data p with
      | error e => rw [hstep] at h; exact absurd h (by simp)
      | ok d2 =>
          rw [hstep] at h
          rw [ih h, add_bundle_get_ne hstep k hk]

theorem get_link_ext {a b : Json} (h : a.get "link" = b.get "link")
    (relation : String) : get_link a relation = get_link b relation := by
  unfold get_link
  rw [h]

/-- C10: accumulation (`add_bundle`, any number of times) mutates only the
`entry` array of the underlying JSON of the receiving bundle — `total`, `next_link` and
`previous_link` still report the values of the first page, because the link table
is never updated. -/
theorem accumulate_preserves_total_and_links (data : Json) (pages : List Json)
    (result : Json) (h : fold_add_bundle data pages = Except.ok result) :
    bundle_total result = bundle_total data ∧
    get_next_link result = get_next_link data ∧
    get_previous_link result = get_previous_link data := by
  have hlink : result.get "link" = data.get "link" :=
    fold_add_bundle_get_ne h "link" (by decide)
  refine ⟨?_, ?_, ?_⟩
  · unfold bundle_total
    exact fold_add_bundle_get_ne h "total" (by decide)
  · exact get_link_ext hlink "next"
  · exact get_link_ext hlink "previous"

/-- Witness for C10: a first page with `total`, `next` and `previous` links,
accumulated with a second page that carries its own (different) link table,
still reports the values of the first page. -/
theorem accumulate_preserves_total_and_links_witness :
    bundle_total (Json.obj
      [("total", Json.num 7),
       ("link", Json.arr [Json.obj [("relation", Json.str "next"),
                                    ("url", Json.str "PAGE2")]]),
       ("entry", Json.arr [Json.obj [("resource", Json.str "r1"),
                                     ("resource2", Json.null)],
                           Json.obj [("resource", Json.str "r2")]])]) =
      bundle_total (Json.obj
      [("total", Json.num 7),
       ("link", Json.arr [Json.obj [("relation", Json.str "next"),
                                    ("url", Json.str "PAGE2")]]),
       ("entry", Json.arr [Json.obj [("resource", Json.str "r1"),
                                     ("resource2", Json.null)]])]) ∧
    get_next_link (Json.obj
      [("total", Json.num 7),
       ("link", Json.arr [Json.obj [("relation", Json.str "next"),
                                    ("url", Json.str "PAGE2")]]),
       ("entry", Json.arr [Json.obj [("resource", Json.str "r1"),
                                     ("resource2", Json.null)],
                           Json.obj [("resource", Json.str "r2")]])]) =
      get_next_link (Json.obj
      [("total", Json.num 7),
       ("link", Json.arr [Json.obj [("relation", Json.str "next"),
                                    ("url", Json.str "PAGE2")]]),
       ("entry", Json.arr [Json.obj [("resource", Json.str "r1"),
                                     ("resource2", Json.null)]])]) ∧
    get_previous_link (Json.obj
      [("total", Json.num 7),
       ("link", Json.arr [Json.obj [("relation", Json.str "next"),
                                    ("url", Json.str "PAGE2")]]),
       ("entry", Json.arr [Json.obj [("resource", Json.str "r1"),
                                     ("resource2", Json.null)],
                           Json.obj [("resource", Json.str "r2")]])]) =
      get_previous_link (Json.obj
      [("total", Json.num 7),
       ("link", Json.arr [Json.obj [("relation", Json.str "next"),
                                    ("url", Json.str "PAGE2")]]),
       ("entry", Json.arr [Json.obj [("resource", Json.str "r1"),
                                     ("resource2", Json.null)]])]) :=
  accumulate_preserves_total_and_links
    (Json.obj
      [("total", Json.num 7),
       ("link", Json.arr [Json.obj [("relation", Json.str "next"),
                                    ("url", Json.str "PAGE2")]]),
       ("entry", Json.arr [Json.obj [("resource", Json.str "r1"),
                                     ("resource2", Json.null)]])])
    [Json.obj [("link", Json.arr [Json.obj [("relation", Json.str "next"),
                                            ("url", Json.str "PAGE3")]]),
               ("entry", Json.arr [Json.obj [("resource", Json.str "r2")]])]]
    (Json.obj
      [("total", Json.num 7),
       ("link", Json.arr [Json.obj [("relation", Json.str "next"),
                                    ("url", Json.str "PAGE2")]]),
       ("entry", Json.arr [Json.obj [("resource", Json.str "r1"),
                                     ("resource2", Json.null)],
                           Json.obj [("resource", Json.str "r2")]])])
    rfl

/-- Counterexample to C4 as stated: a receiving bundle whose JSON has no
`entry` key fails with `KeyError` even though the other bundle has no
entries (`self.data["entry"]` is subscripted unconditionally). -/
theorem add_bundle_no_entry_key_raises :
    add_bundle (Json.obj [("resourceType", Json.str "Bundle")])
      (Json.obj [("resourceType", Json.str "Bundle")]) =
      Except.error (FQError.keyError "entry") := rfl

/-- C4 (amended): for every receiving bundle whose JSON has an `entry`
array and every other bundle with no entries, `add_bundle` succeeds and
returns the receiving bundle unchanged. -/
theorem add_bundle_noop_when_other_empty (data other : Json) (xs : List Json)
    (hdata : data.get "entry" = some (Json.arr xs))
    (hother : pyEntriesOf other = Except.ok []) :
    add_bundle data other = Except.ok data := by
  obtain ⟨f, rfl⟩ := json_obj_of_get hdata
  have hf : lookupField f "entry" = some (Json.arr xs) := by
    simpa [Json.get] using hdata
  unfold add_bundle
  rw [show (Json.obj f).get "entry" = lookupField f "entry" from rfl, hf, hother]
  simp only [List.append_nil, Json.set]
  rw [setField_lookup_eq f "entry" (Json.arr xs) hf]

/-- Witness for the amended C4: a one-entry receiver plus an entry-less page
(and a receiver plus a page with an empty `entry` array) are both no-ops. -/
theorem add_bundle_noop_when_other_empty_witness :
    add_bundle
      (Json.obj [("entry", Json.arr [Json.obj [("resource", Json.str "r1")]])])
      (Json.obj [("resourceType", Json.str "Bundle")]) =
      Except.ok
        (Json.obj [("entry", Json.arr [Json.obj [("resource", Json.str "r1")]])]) ∧
    add_bundle
      (Json.obj [("entry", Json.arr [Json.obj [("resource", Json.str "r1")]])])
      (Json.obj [("entry", Json.arr [])]) =
      Except.ok
        (Json.obj [("entry", Json.arr [Json.obj [("resource", Json.str "r1")]])]) :=
  ⟨add_bundle_noop_when_other_empty _ _ [Json.obj [("resource", Json.str "r1")]]
      rfl rfl,
   add_bundle_noop_when_other_empty _ _ [Json.obj [("resource", Json.str "r1")]]
      rfl rfl⟩

/-- Counterexample to C8 as stated: an initial bundle without an `entry` key
makes the very first accumulation fail with `KeyError` — no resource
sequence is produced at all. -/
theorem fold_add_bundle_no_entry_key_raises :
    fold_add_bundle (Json.obj [("total", Json.num 1)])
      [Json.obj [("entry", Json.arr [])]] =
      Except.error (FQError.keyError "entry") := rfl

/-- C8 (amended): for every initial bundle whose JSON has an `entry` array
and every finite sequence of page bundles each with an absent or array
`entry`, sequential accumulation succeeds, its `entry` array is the ordered
concatenation of all entry lists, and the resource sequence equals the one
obtained from merging the raw JSON entries of all bundles in order. -/
theorem fold_add_bundle_concat (pages : List Json) (data : Json)
    (xs : List Json) (yss : List (List Json))
    (hdata : data.get "entry" = some (Json.arr xs))
    (hpages : entriesOfPages pages = Except.ok yss) :
    ∃ result, fold_add_bundle data pages = Except.ok result ∧
      result.get "entry" = some (Json.arr (xs ++ yss.flatten)) ∧
      get_resources_from_bundle result = resourcesOfEntries (xs ++ yss.flatten) := by
  induction pages generalizing data xs yss with
  | nil =>
      unfold entriesOfPages at hpages
      cases hpages
      refine ⟨data, rfl, by simpa using hdata, ?_⟩
      unfold get_resources_from_bundle pyEntriesOf
      rw [hdata]
      simp
  | cons p ps ih =>
      unfold entriesOfPages at hpages
      cases hys : pyEntriesOf p with
      | error e => rw [hys] at hpages; exact absurd hpages (by simp)
      | ok ys =>
          rw [hys] at hpages
          cases hrest : entriesOfPages ps with
          | error e => rw [hrest] at hpages; exact absurd hpages (by simp)
          | ok yss2 =>
              rw [hrest] at hpages
              cases hpages
              obtain ⟨f, rfl⟩ := json_obj_of_get hdata
              have hf : lookupField f "entry" = some (Json.arr xs) := by
                simpa [Json.get] using hdata
              have hstep : add_bundle (Json.obj f) p =
                  Except.ok (Json.obj (setField f "entry" (Json.arr (xs ++ ys)))) := by
                unfold add_bundle
                rw [show (Json.obj f).get "entry" = lookupField f "entry" from rfl,
                  hf, hys]
                rfl
              have hget2 : (Json.obj (setField f "entry"
                  (Json.arr (xs ++ ys)))).get "entry" =
                  some (Json.arr (xs ++ ys)) := by
                simp [Json.get, lookupField_setField_self]
              obtain ⟨result, hfold, hentry, hres⟩ := ih _ _ _ hget2 hrest
              refine ⟨result, ?_, ?_, ?_⟩
              · unfold fold_add_bundle
                rw [hstep]
                exact hfold
              · rw [hentry]
                simp
              · rw [hres]
                simp

/-- Witness for the amended C8: two pages accumulated one after another give
the ordered concatenation of all three entry lists. -/
theorem fold_add_bundle_concat_witness :
    ∃ result,
      fold_add_bundle
        (Json.obj [("entry", Json.arr [Json.obj [("resource", Json.str "a")]])])
        [Json.obj [("entry", Json.arr [Json.obj [("resource", Json.str "b")]])],
         Json.obj [("entry", Json.arr [Json.obj [("resource", Json.str "c")],
                                       Json.obj [("resource", Json.str "d")]])]] =
        Except.ok result ∧
      result.get "entry" = some (Json.arr
        ([Json.obj [("resource", Json.str "a")]] ++
         [[Json.obj [("resource", Json.str "b")]],
          [Json.obj [("resource", Json.str "c")],
           Json.obj [("resource", Json.str "d")]]].flatten)) ∧
      get_resources_from_bundle result = resourcesOfEntries
        ([Json.obj [("resource", Json.str "a")]] ++
         [[Json.obj [("resource", Json.str "b")]],
          [Json.obj [("resource", Json.str "c")],
           Json.obj [("resource", Json.str "d")]]].flatten) :=
  fold_add_bundle_concat
    [Json.obj [("entry", Json.arr [Json.obj [("resource", Json.str "b")]])],
     Json.obj [("entry", Json.arr [Json.obj [("resource", Json.str "c")],
                                   Json.obj [("resource", Json.str "d")]])]]
    (Json.obj [("entry", Json.arr [Json.obj [("resource", Json.str "a")]])])
    [Json.obj [("resource", Json.str "a")]]
    [[Json.obj [("resource", Json.str "b")]],
     [Json.obj [("resource", Json.str "c")], Json.obj [("resource", Json.str "d")]]]
    rfl rfl

/-- C6: the single-resource accessor returns `None` on an empty bundle, the
lone resource on a one-resource bundle, and fails with
`MultipleResourcesError` on two or more. -/
theorem single_resource_cases (data : Json) (rs : List Json)
    (h : get_resources_from_bundle data = Except.ok rs) :
    (rs = [] → bundle_resource data = Except.ok none) ∧
    (∀ r, rs = [r] → bundle_resource data = Except.ok (some r)) ∧
    (rs.length ≥ 2 → bundle_resource data = Except.error FQError.multipleResources) := by
  unfold bundle_resource
  rw [h]
  refine ⟨?_, ?_, ?_⟩
  · rintro rfl
    simp
  · rintro r rfl
    simp
  · intro hlen
    have h1 : ¬ rs.length = 1 := by omega
    have h2 : rs.length > 1 := by omega
    simp [h1, h2]

/-- Witness for C6, at bundles with zero, one and two resources. -/
theorem single_resource_cases_witness :
    bundle_resource (Json.obj [("entry", Json.arr [])]) = Except.ok none ∧
    bundle_resource (Json.obj [("entry", Json.arr
        [Json.obj [("resource", Json.str "only")]])]) =
      Except.ok (some (Json.str "only")) ∧
    bundle_resource (Json.obj [("entry", Json.arr
        [Json.obj [("resource", Json.str "one")],
         Json.obj [("resource", Json.str "two")]])]) =
      Except.error FQError.multipleResources :=
  ⟨(single_resource_cases (Json.obj [("entry", Json.arr [])]) [] rfl).1 rfl,
   (single_resource_cases (Json.obj [("entry", Json.arr
        [Json.obj [("resource", Json.str "only")]])])
      [Json.str "only"] rfl).2.1 (Json.str "only") rfl,
   (single_resource_cases (Json.obj [("entry", Json.arr
        [Json.obj [("resource", Json.str "one")],
         Json.obj [("resource", Json.str "two")]])])
      [Json.str "one", Json.str "two"] rfl).2.2 (by decide)⟩

theorem projectCell_eq_cases (vs : List Json) :
    projectCell vs =
      if vs.length = 1 then vs.headD Json.null
      else if vs.length = 0 then Json.null
      else Json.arr vs := by
  match vs with
  | [] => rfl
  | [v] => rfl
  | a :: b :: t => simp [projectCell]

/-- C7: for every resource and every path of the projection spec, the row
field produced by `collect_many_paths` is the unwrapped sole value when the
path evaluator returns exactly one match, the absent marker (`None`, i.e.
`Json.null`) when it returns zero matches, and the full ordered match
sequence when it returns more than one; rows come one per resource, in entry
order. -/
theorem collect_many_paths_rows (eval : String → Json → List Json)
    (bundle : Json) (entries rs : List Json) (paths : List (String × String))
    (hentry : bundle.get "entry" = some (Json.arr entries))
    (hres : resourcesOfEntries entries = Except.ok rs) :
    collect_many_paths bundle paths eval =
      Except.ok (rs.map (fun r => paths.map (fun kp =>
        (kp.1,
         if (eval kp.2 r).length = 1 then (eval kp.2 r).headD Json.null
         else if (eval kp.2 r).length = 0 then Json.null
         else Json.arr (eval kp.2 r))))) := by
  unfold collect_many_paths
  rw [hentry]
  simp only [hres, projectCell_eq_cases]

/-- Witness for C7: one resource, three paths with one, zero and two
matches respectively. -/
theorem collect_many_paths_rows_witness :
    collect_many_paths
      (Json.obj [("entry", Json.arr [Json.obj [("resource", Json.str "res")]])])
      [("a", "one"), ("b", "zero"), ("c", "many")]
      (fun p _ =>
        if p = "one" then [Json.num 1]
        else if p = "many" then [Json.num 1, Json.num 2]
        else []) =
      Except.ok [[("a", Json.num 1), ("b", Json.null),
                  ("c", Json.arr [Json.num 1, Json.num 2])]] := by
  rw [collect_many_paths_rows
      (fun p _ =>
        if p = "one" then [Json.num 1]
        else if p = "many" then [Json.num 1, Json.num 2]
        else [])
      (Json.obj [("entry", Json.arr [Json.obj [("resource", Json.str "res")]])])
      [Json.obj [("resource", Json.str "res")]] [Json.str "res"]
      [("a", "one"), ("b", "zero"), ("c", "many")] rfl rfl]
  rfl

/-- C3 failing input: an empty bundle WITH a projection spec supplied does
not return an empty table — `first_resource_type = self.resources[0][...]`
is evaluated before the `columns is None` check and raises `IndexError`. -/
theorem to_df_empty_bundle_with_columns_raises :
    to_df (Json.obj [("resourceType", Json.str "Bundle"), ("entry", Json.arr [])])
      (some [("id", "id")]) (fun _ _ => []) =
      Except.error FQError.indexError := rfl

/-- First page of a two-page chain: carries a `next` link to `PG2`. -/
def chainBundle1 : Json := Json.obj
  [("resourceType", Json.str "Bundle"),
   ("link", Json.arr [Json.obj [("relation", Json.str "next"),
                                ("url", Json.str "PG2")]]),
   ("entry", Json.arr [Json.obj [("resource",
      Json.obj [("resourceType", Json.str "Patient"), ("id", Json.str "1")])]])]

/-- Second and last page of the chain: no `link` at all. -/
def chainBundle2 : Json := Json.obj
  [("resourceType", Json.str "Bundle"),
   ("entry", Json.arr [Json.obj [("resource",
      Json.obj [("resourceType", Json.str "Patient"), ("id", Json.str "2")])]])]

/-- A server holding the two-page chain: the search url returns page 1,
`PG2` returns page 2. -/
def chainServer : Server := fun u =>
  if u = "PG2" then chainBundle2 else chainBundle1

/-- C1 failing input, evaluated: with `pages=3` against the two-page chain
(`min(3, 2) = 2`), both executors issue THREE requests, the second and third
both to `PG2` — the loop re-reads `next_link` from the accumulated bundle,
and `add_bundle` never updates the `link` table, so the `next` link of the
first page is followed again instead of stopping at the link-less page 2. -/
theorem pagination_reuses_first_page_next_link :
    (sync_get "https://fhir.example/" false chainServer "Patient" none
        (Json.bool false) none false (some 3) none).map
        (fun r => r.2.map ReqRecord.url) =
      Except.ok ["https://fhir.example/Patient", "PG2", "PG2"] ∧
    (async_get "https://fhir.example/" false [] chainServer "Patient" none
        (Json.bool false) none false (some 3) none).map
        (fun r => r.2.map ReqRecord.url) =
      Except.ok ["https://fhir.example/Patient", "PG2", "PG2"] := ⟨rfl, rfl⟩

/-- A server returning an empty searchset for every url. -/
def fullUrlServer : Server := fun _ =>
  Json.obj [("resourceType", Json.str "Bundle"), ("entry", Json.arr [])]

/-- C2 failing input, evaluated: supplying BOTH `params` and a url string as
`full_url` is not rejected — the check counts `full_url is True`, so the url
string is not counted, no error is raised, and a GET to `full_url` is issued
(on both executors).  The check does fire when the second option is
`search_string` or the literal `True`. -/
theorem full_url_string_with_params_not_rejected :
    sync_get "https://fhir.example/" false fullUrlServer "Patient"
        (some [("name", "Smith")]) (Json.str "https://other.example/Patient?q=1")
        none false none none =
      Except.ok (fullUrlServer "https://other.example/Patient?q=1",
        [⟨"GET", "https://other.example/Patient?q=1", none, none⟩]) ∧
    async_get "https://fhir.example/" false [] fullUrlServer "Patient"
        (some [("name", "Smith")]) (Json.str "https://other.example/Patient?q=1")
        none false none none =
      Except.ok (fullUrlServer "https://other.example/Patient?q=1",
        [⟨"GET", "https://other.example/Patient?q=1", none, some []⟩]) ∧
    sync_get "https://fhir.example/" false fullUrlServer "Patient"
        (some [("name", "Smith")]) (Json.bool false) (some "name=Smith")
        false none none =
      Except.error FQError.ambiguousQuery ∧
    sync_get "https://fhir.example/" false fullUrlServer "Patient"
        (some [("name", "Smith")]) (Json.bool true) none false none none =
      Except.error FQError.ambiguousQuery :=
  ⟨rfl, rfl, rfl, rfl⟩

theorem followPagesSync_log (server : Server) :
    ∀ (fuel : Nat) (bund : Json) (log : List ReqRecord) (res : Json)
      (log2 : List ReqRecord),
      followPagesSync server fuel bund log = Except.ok (res, log2) →
      ∃ newPart, log2 = log ++ newPart ∧ ∀ r ∈ newPart, r.headers = none := by
  intro fuel
  induction fuel with
  | zero =>
      intro bund log res log2 h
      unfold followPagesSync at h
      cases h
      exact ⟨[], by simp⟩
  | succ n ih =>
      intro bund log res log2 h
      unfold followPagesSync at h
      cases hnl : get_next_link bund with
      | error e => rw [hnl] at h; exact absurd h (by simp)
      | ok onl =>
          rw [hnl] at h
          cases onl with
          | none => simp only [] at h; cases h; exact ⟨[], by simp⟩
          | some u =>
              simp only [] at h
              by_cases htr : u.isTruthy
              · rw [if_pos htr] at h
                cases u with
                | str nextUrl =>
                    simp only [] at h
                    cases hab : add_bundle bund (server nextUrl) with
                    | error e => rw [hab] at h; simp at h
                    | ok bund2 =>
                        rw [hab] at h
                        obtain ⟨np, hlog, hnone⟩ :=
                          ih bund2 (log ++ [⟨"GET", nextUrl, none, none⟩]) res log2 h
                        refine ⟨⟨"GET", nextUrl, none, none⟩ :: np, ?_, ?_⟩
                        · rw [hlog]; simp
                        · intro r hr
                          rcases List.mem_cons.mp hr with hr1 | hr2
                          · rw [hr1]
                          · exact hnone r hr2
                | null => simp at h
                | bool b => simp at h
                | num m => simp at h
                | arr a => simp at h
                | obj o => simp at h
              · rw [if_neg htr] at h
                cases h
                exact ⟨[], by simp⟩

theorem followPagesAsync_log (server : Server)
    (request_headers : List (String × String)) :
    ∀ (fuel : Nat) (bund : Json) (log : List ReqRecord) (res : Json)
      (log2 : List ReqRecord),
      followPagesAsync server request_headers fuel bund log =
        Except.ok (res, log2) →
      ∃ newPart, log2 = log ++ newPart ∧
        ∀ r ∈ newPart, r.headers = some request_headers := by
  intro fuel
  induction fuel with
  | zero =>
      intro bund log res log2 h
      unfold followPagesAsync at h
      cases h
      exact ⟨[], by simp⟩
  | succ n ih =>
      intro bund log res log2 h
      unfold followPagesAsync at h
      cases hnl : get_next_link bund with
      | error e => rw [hnl] at h; exact absurd h (by simp)
      | ok onl =>
          rw [hnl] at h
          cases onl with
          | none => simp only [] at h; cases h; exact ⟨[], by simp⟩
          | some u =>
              simp only [] at h
              by_cases htr : u.isTruthy
              · rw [if_pos htr] at h
                cases u with
                | str nextUrl =>
                    simp only [] at h
                    cases hab : add_bundle bund (server nextUrl) with
                    | error e => rw [hab] at h; simp at h
                    | ok bund2 =>
                        rw [hab] at h
                        obtain ⟨np, hlog, hhdr⟩ :=
                          ih bund2
                            (log ++ [⟨"GET", nextUrl, none, some request_headers⟩])
                            res log2 h
                        refine
                          ⟨⟨"GET", nextUrl, none, some request_headers⟩ :: np, ?_, ?_⟩
                        · rw [hlog]; simp
                        · intro r hr
                          rcases List.mem_cons.mp hr with hr1 | hr2
                          · rw [hr1]
                          · exact hhdr r hr2
                | null => simp at h
                | bool b => simp at h
                | num m => simp at h
                | arr a => simp at h
                | obj o => simp at h
              · rw [if_neg htr] at h
                cases h
                exact ⟨[], by simp⟩

/-- C5 (amended): the ASYNC executor issues every request of a call —
initial and each followed next-link request — with the same merged headers
(client-level headers overlaid with the caller-supplied headers); the SYNC
executor passes the caller-supplied headers only to the initial request and
issues every followed next-link request with no `headers` argument at all. -/
theorem headers_on_followed_pages :
    (∀ (base : String) (cup : Bool) (sh : List (String × String))
       (server : Server) (rt : String)
       (params : Option (List (String × String))) (fu : Json)
       (ss : Option String) (up : Bool) (pages : Option Int)
       (hdrs : Option (List (String × String)))
       (bund : Json) (log : List ReqRecord),
       async_get base cup sh server rt params fu ss up pages hdrs =
         Except.ok (bund, log) →
       ∀ r ∈ log, r.headers = some (mergeHeaders sh (hdrs.getD []))) ∧
    (∀ (base : String) (cup : Bool) (server : Server) (rt : String)
       (params : Option (List (String × String))) (fu : Json)
       (ss : Option String) (up : Bool) (pages : Option Int)
       (hdrs : Option (List (String × String)))
       (bund : Json) (log : List ReqRecord),
       sync_get base cup server rt params fu ss up pages hdrs =
         Except.ok (bund, log) →
       (∀ r ∈ log.take 1, r.headers = hdrs) ∧
       (∀ r ∈ log.drop 1, r.headers = none)) := by
  constructor
  · intro base cup sh server rt params fu ss up pages hdrs bund log h r hr
    simp only [async_get] at h
    split at h
    · simp at h
    · split at h
      · split at h
        · cases h
          simp only [List.mem_singleton] at hr
          rw [hr]
        · simp at h
      · split at h
        · obtain ⟨np, hlog, hhdr⟩ := followPagesAsync_log server _ _ _ _ _ _ h
          subst hlog
          rcases List.mem_append.mp hr with hr1 | hr2
          · simp only [List.mem_singleton] at hr1
            rw [hr1]
          · exact hhdr r hr2
        · cases h
          simp only [List.mem_singleton] at hr
          rw [hr]
  · intro base cup server rt params fu ss up pages hdrs bund log h
    simp only [sync_get] at h
    split at h
    · simp at h
    · split at h
      · split at h
        · cases h
          constructor
          · intro r hr
            simp only [List.take_succ_cons, List.take_zero, List.mem_singleton] at hr
            rw [hr]
          · intro r hr
            simp at hr
        · simp at h
      · split at h
        · obtain ⟨np, hlog, hnone⟩ := followPagesSync_log server _ _ _ _ _ h
          subst hlog
          constructor
          · intro r hr
            simp only [List.singleton_append, List.take_succ_cons, List.take_zero,
              List.mem_singleton] at hr
            rw [hr]
          · intro r hr
            simp only [List.singleton_append, List.drop_succ_cons,
              List.drop_zero] at hr
            exact hnone r hr
        · cases h
          constructor
          · intro r hr
            simp only [List.take_succ_cons, List.take_zero, List.mem_singleton] at hr
            rw [hr]
          · intro r hr
            simp at hr

/-- First page of the header-test chain: `next` link to `PG2h`. -/
def headersChainBundle1 : Json := Json.obj
  [("resourceType", Json.str "Bundle"),
   ("link", Json.arr [Json.obj [("relation", Json.str "next"),
                                ("url", Json.str "PG2h")]]),
   ("entry", Json.arr [Json.obj [("resource",
      Json.obj [("id", Json.str "h1")])]])]

/-- Last page of the header-test chain: no `link`. -/
def headersChainBundle2 : Json := Json.obj
  [("resourceType", Json.str "Bundle"),
   ("entry", Json.arr [Json.obj [("resource",
      Json.obj [("id", Json.str "h2")])]])]

/-- Server for the header-test chain. -/
def headersChainServer : Server := fun u =>
  if u = "PG2h" then headersChainBundle2 else headersChainBundle1

/-- The accumulated bundle after following the header-test chain once. -/
def headersChainMerged : Json := Json.obj
  [("resourceType", Json.str "Bundle"),
   ("link", Json.arr [Json.obj [("relation", Json.str "next"),
                                ("url", Json.str "PG2h")]]),
   ("entry", Json.arr [Json.obj [("resource", Json.obj [("id", Json.str "h1")])],
                       Json.obj [("resource", Json.obj [("id", Json.str "h2")])]])]

/-- Counterexample to C5 as stated: on the SYNC executor, a paginated call
with caller-supplied headers passes them to the initial request but issues
the followed next-link request with no headers argument at all. -/
theorem sync_followed_page_drops_caller_headers :
    (sync_get "https://fhir.example/" false headersChainServer "Patient" none
        (Json.bool false) none false (some 2) (some [("X-Custom", "1")])).map
        (fun r => r.2.map ReqRecord.headers) =
      Except.ok [some [("X-Custom", "1")], none] := rfl

/-- Witness for the amended C5: instantiating `headers_on_followed_pages`
on a two-page run of each executor — the async followed request carries the
merged headers, the sync followed request carries none. -/
theorem headers_on_followed_pages_witness :
    (⟨"GET", "PG2h", none, some [("H", "c"), ("X", "1")]⟩ : ReqRecord).headers =
      some (mergeHeaders [("H", "c")] ((some [("X", "1")]).getD [])) ∧
    (⟨"GET", "PG2h", none, none⟩ : ReqRecord).headers = none :=
  ⟨headers_on_followed_pages.1 "https://fhir.example/" false [("H", "c")]
      headersChainServer "Patient" none (Json.bool false) none false (some 2)
      (some [("X", "1")]) headersChainMerged
      [⟨"GET", "https://fhir.example/Patient", none,
        some [("H", "c"), ("X", "1")]⟩,
       ⟨"GET", "PG2h", none, some [("H", "c"), ("X", "1")]⟩]
      rfl
      ⟨"GET", "PG2h", none, some [("H", "c"), ("X", "1")]⟩ (by simp),
   (headers_on_followed_pages.2 "https://fhir.example/" false headersChainServer
      "Patient" none (Json.bool false) none false (some 2)
      (some [("X-Custom", "1")]) headersChainMerged
      [⟨"GET", "https://fhir.example/Patient", none, some [("X-Custom", "1")]⟩,
       ⟨"GET", "PG2h", none, none⟩]
      rfl).2
      ⟨"GET", "PG2h", none, none⟩ (by simp)⟩

/-- Counterexample to C9 as stated: a client configured for login auth with
username and password present but NO login URL does not fail — `_setup_auth`
requires a truthy `login_url` before even entering the login branch, so auth
setup completes silently with nothing configured. -/
theorem login_auth_without_url_silently_skips :
    setup_auth (some "login") (some "user") (some "pass") none none
      (fun s => s) (fun _ => Except.ok "tok") =
      Except.ok AuthResult.skipped := rfl

/-- C9 (amended): with auth_method `login`, a present login URL but an
absent/empty username or password fails with `CredentialsMissingError`;
an absent/empty login URL makes auth setup (and `ensure_auth` of the
sync client) silently skip login instead of failing. -/
theorem login_auth_missing_credentials_cases :
    (∀ (username password token login_url : Option String)
       (b64 : String → String) (lsrv : LoginServer),
       pyTruthyOptStr login_url = true →
       (pyTruthyOptStr username = false ∨ pyTruthyOptStr password = false) →
       setup_auth (some "login") username password token login_url b64 lsrv =
         Except.error FQError.credentialsMissing) ∧
    (∀ (username password token login_url : Option String)
       (b64 : String → String) (lsrv : LoginServer),
       pyTruthyOptStr login_url = false →
       setup_auth (some "login") username password token login_url b64 lsrv =
         Except.ok AuthResult.skipped) ∧
    (∀ (username password login_url : Option String) (lsrv : LoginServer),
       pyTruthyOptStr login_url = false →
       ensure_auth true login_url username password lsrv =
         Except.ok AuthResult.skipped) := by
  refine ⟨?_, ?_, ?_⟩
  · intro username password token login_url b64 lsrv hurl hcred
    unfold setup_auth
    rw [if_neg (by simp), if_neg (by simp), if_pos (by simp [hurl])]
    unfold setup_login_auth
    rcases hcred with hc | hc
    · rw [if_pos (by simp [hc])]
    · rw [if_pos (by simp [hc])]
  · intro username password token login_url b64 lsrv hurl
    unfold setup_auth
    rw [if_neg (by simp), if_neg (by simp), if_neg (by simp [hurl])]
  · intro username password login_url lsrv hurl
    unfold ensure_auth
    rw [if_neg (by simp [hurl])]

/-- Witness for the amended C9: missing username with a login URL errors;
missing login URL (with full credentials) silently skips in both
`_setup_auth` and `ensure_auth`. -/
theorem login_auth_missing_credentials_cases_witness :
    setup_auth (some "login") none (some "pass") none (some "https://l.example/")
      (fun s => s) (fun _ => Except.ok "tok") =
      Except.error FQError.credentialsMissing ∧
    setup_auth (some "login") (some "user") (some "pass") none none
      (fun s => s ++ s) (fun _ => Except.ok "tok2") =
      Except.ok AuthResult.skipped ∧
    ensure_auth true none (some "user") (some "pass")
      (fun _ => Except.ok "tok") = Except.ok AuthResult.skipped :=
  ⟨login_auth_missing_credentials_cases.1 none (some "pass") none
      (some "https://l.example/") (fun s => s) (fun _ => Except.ok "tok")
      rfl (Or.inl rfl),
   login_auth_missing_credentials_cases.2.1 (some "user") (some "pass") none none
      (fun s => s ++ s) (fun _ => Except.ok "tok2") rfl,
   login_auth_missing_credentials_cases.2.2 (some "user") (some "pass") none
      (fun _ => Except.ok "tok") rfl⟩
